import Mathlib

/-!
Shallow embedding of `src/main.py` (the activitypub reminder bot) and proofs
about it.  Pure logic (the reminder parser, the cache lookup, the webfinger
dispatch, the activity construction and store insertion performed by the
handlers) is translated into executable Lean definitions; effectful calls
(actor fetch over the network, delivery of a signed request) are modelled by
explicit parameters and result records.  An unhandled Python exception inside
a handler is modelled as `Except.error ()` — FastAPI surfaces such an
exception to the remote peer as a server error.  Strings are modelled over
the ASCII fragment: the Python regex classes `\s` and `\d` and `str.strip`
are rendered by their ASCII behaviour, which is what every claim exercises.
-/

/-! ## Configuration (src/main.py lines 27-31) -/

def HOST : String := "apsig.amase.cc"

def USER_ID : String := "reminder"

/-- The actor's URI, `actor.id` (src/main.py line 54). -/
def actorUri : String := "https://" ++ HOST ++ "/actor"

/-! ## Key material (src/main.py lines 33-65)

The process holds one RSA private key (loaded or generated by the
`cryptography` library).  We embed the key mathematically: a private key is
the pair of primes together with the public and private exponents, a public
key is the modulus and public exponent.  `public_key_pem`
(src/main.py lines 47-50) publishes the SubjectPublicKeyInfo derived from the
same private key; PEM encoding is abstracted to the mathematical content of
that structure, namely `(n, e)`.  Signing is RSA exponentiation with the
private exponent, verification with the public exponent — this is what the
transport's HTTP-signature layer does with these keys. -/

structure RSAPrivateKey where
  p : Nat
  q : Nat
  e : Nat
  d : Nat
deriving DecidableEq

/-- RSA modulus of the key pair. -/
def RSAPrivateKey.n (k : RSAPrivateKey) : Nat := k.p * k.q

/-- The published SubjectPublicKeyInfo content: modulus and public exponent. -/
structure RSAPublicKeyInfo where
  n : Nat
  e : Nat
deriving DecidableEq

/-- `private_key.public_key().public_bytes(...)` (src/main.py lines 47-50):
the public component derived from the held private key. -/
def public_key_pem (k : RSAPrivateKey) : RSAPublicKeyInfo := ⟨k.n, k.e⟩

/-- The key record embedded in the actor document
(src/main.py lines 60-64): `id`, `owner`, `publicKeyPem`. -/
structure CryptographicKeyRec where
  id : String
  owner : String
  publicKeyPem : RSAPublicKeyInfo
deriving DecidableEq

/-- `actor.publicKey` (src/main.py lines 60-64). -/
def actorKeyRecord (k : RSAPrivateKey) : CryptographicKeyRec :=
  { id := actorUri ++ "#main-key", owner := actorUri, publicKeyPem := public_key_pem k }

/-- RSA signature of payload `m` with the held private key. -/
def rsaSign (k : RSAPrivateKey) (m : Nat) : Nat := m ^ k.d % k.n

/-- RSA verification of signature `s` over payload `m` against a published
public key: the signature raised to the public exponent must agree with the
payload modulo the modulus. -/
def rsaVerify (pk : RSAPublicKeyInfo) (m s : Nat) : Bool :=
  decide (s ^ pk.e % pk.n = m % pk.n)

/-- The well-formedness that `rsa.generate_private_key` (src/main.py line 39)
guarantees: distinct primes and exponents inverse to each other modulo
`lcm (p-1) (q-1)` (the Carmichael function of the modulus, which is what the
`cryptography` library uses). -/
def ValidRSAKey (k : RSAPrivateKey) : Prop :=
  k.p.Prime ∧ k.q.Prime ∧ k.p ≠ k.q ∧
    k.e * k.d ≡ 1 [MOD Nat.lcm (k.p - 1) (k.q - 1)]

instance (k : RSAPrivateKey) : Decidable (ValidRSAKey k) := by
  unfold ValidRSAKey; infer_instance

lemma pow_exponent_cycle (p : Nat) (hp : p.Prime) (c : Nat) (hdvd : (p - 1) ∣ c)
    (m : Nat) : m ^ (c + 1) ≡ m [MOD p] := by
  haveI : Fact p.Prime := ⟨hp⟩
  have h0 : ((m : ZMod p)) ^ (c + 1) = (m : ZMod p) := by
    rcases eq_or_ne (m : ZMod p) 0 with hm | hm
    · rw [hm, zero_pow (Nat.succ_ne_zero c)]
    · obtain ⟨t, rfl⟩ := hdvd
      rw [pow_succ, pow_mul, ZMod.pow_card_sub_one_eq_one hm, one_pow, one_mul]
  have := (ZMod.natCast_eq_natCast_iff (m ^ (c + 1)) m p).mp (by push_cast; exact h0)
  exact this

lemma rsa_roundtrip_mod (k : RSAPrivateKey) (hk : ValidRSAKey k) (m : Nat) :
    m ^ (k.d * k.e) ≡ m [MOD k.n] := by
  obtain ⟨hp, hq, hne, hmod⟩ := hk
  have hed : 1 ≤ k.e * k.d := by
    by_contra hlt
    have h0 : k.e * k.d = 0 := by omega
    rw [h0] at hmod
    have hdvd1 : Nat.lcm (k.p - 1) (k.q - 1) ∣ 1 :=
      (Nat.modEq_iff_dvd' (by omega)).mp hmod
    have hl1 : Nat.lcm (k.p - 1) (k.q - 1) = 1 := Nat.dvd_one.mp hdvd1
    have hp1 := Nat.dvd_lcm_left (k.p - 1) (k.q - 1)
    have hq1 := Nat.dvd_lcm_right (k.p - 1) (k.q - 1)
    rw [hl1] at hp1 hq1
    have hp1 := Nat.dvd_one.mp hp1
    have hq1 := Nat.dvd_one.mp hq1
    have := hp.two_le
    have := hq.two_le
    omega
  have hdvd : Nat.lcm (k.p - 1) (k.q - 1) ∣ (k.e * k.d - 1) :=
    (Nat.modEq_iff_dvd' hed).mp hmod.symm
  have hdp : (k.p - 1) ∣ (k.e * k.d - 1) :=
    dvd_trans (Nat.dvd_lcm_left _ _) hdvd
  have hdq : (k.q - 1) ∣ (k.e * k.d - 1) :=
    dvd_trans (Nat.dvd_lcm_right _ _) hdvd
  have hsum : k.d * k.e = (k.e * k.d - 1) + 1 := by
    rw [Nat.mul_comm]; omega
  have hmp : m ^ (k.d * k.e) ≡ m [MOD k.p] := by
    rw [hsum]; exact pow_exponent_cycle k.p hp _ hdp m
  have hmq : m ^ (k.d * k.e) ≡ m [MOD k.q] := by
    rw [hsum]; exact pow_exponent_cycle k.q hq _ hdq m
  have hco : Nat.Coprime k.p k.q := (Nat.coprime_primes hp hq).mpr hne
  exact (Nat.modEq_and_modEq_iff_modEq_mul hco).mp ⟨hmp, hmq⟩

/-- C1: Signing round trip — for every byte payload `m`, a signature
produced with the private key held by the Key Manager verifies against the
actor's published public key, i.e. against the SubjectPublicKeyInfo derived
from that same private key and embedded in the actor's key record
(src/main.py lines 33-65). -/
theorem signing_roundtrip (k : RSAPrivateKey) (m : Nat) (hk : ValidRSAKey k) :
    rsaVerify (actorKeyRecord k).publicKeyPem m (rsaSign k m) = true := by
  have h : m ^ (k.d * k.e) % k.n = m % k.n := rsa_roundtrip_mod k hk m
  simp only [rsaVerify, actorKeyRecord, public_key_pem, rsaSign, decide_eq_true_eq]
  calc (m ^ k.d % k.n) ^ k.e % k.n
      = (m ^ k.d) ^ k.e % k.n := by rw [← Nat.pow_mod]
    _ = m ^ (k.d * k.e) % k.n := by rw [← pow_mul]
    _ = m % k.n := h

/-- Toy RSA key used to witness `signing_roundtrip`:
p = 3, q = 11, e = 3, d = 7 (3·7 = 21 ≡ 1 mod lcm(2,10) = 10). -/
def toyKey : RSAPrivateKey := ⟨3, 11, 3, 7⟩

theorem signing_roundtrip_witness :
    ValidRSAKey toyKey ∧
      rsaVerify (actorKeyRecord toyKey).publicKeyPem 2 (rsaSign toyKey 2) = true :=
  ⟨by decide, signing_roundtrip toyKey 2 (by decide)⟩

/-! ## Command Parser (src/main.py lines 85-114)

`parse_reminder` applies the regex `^\s*(\d+)\s*(s|m|h|d)\s*(.*)` with
IGNORECASE (no DOTALL and no MULTILINE, so `.` stops at a newline and `^`
anchors at the start of the string).  Every quantifier here is greedy and
backtracking can never change the outcome (whitespace, digit and unit
character classes are pairwise disjoint and `(.*)` always matches), so the
regex is embedded by maximal-munch scanning.  `\s` and `\d` are rendered by
their ASCII behaviour.  A `timedelta` is represented by its total number of
seconds. -/

/-- ASCII fragment of the Python regex class `\s` (also used by
`str.strip`). -/
def isSpace (c : Char) : Bool :=
  decide (c = ' ' ∨ c = '\t' ∨ c = '\n' ∨ c = '\r' ∨ c = '\u000B' ∨ c = '\u000C')

/-- Python `str.strip()`: remove leading and trailing whitespace. -/
def strip (l : List Char) : List Char :=
  ((l.dropWhile isSpace).reverse.dropWhile isSpace).reverse

/-- The characters the unit group `(s|m|h|d)` matches under IGNORECASE. -/
def unitChars : List Char := ['s', 'm', 'h', 'd', 'S', 'M', 'H', 'D']

def isUnit (c : Char) : Bool := unitChars.contains c

/-- Python `int()` on a string of decimal digits. -/
def digitsToNat (l : List Char) : Nat :=
  l.foldl (fun acc c => acc * 10 + (c.toNat - '0'.toNat)) 0

/-- Seconds per unit character (lower case):
`timedelta(seconds|minutes|hours|days = value)`. -/
def unitMult (c : Char) : Nat :=
  if c = 's' then 1 else if c = 'm' then 60
  else if c = 'h' then 3600 else if c = 'd' then 86400 else 0

/-- The fixed default message substituted for an empty reminder text
(src/main.py line 112). -/
def defaultMessage : String := "Here\x27s your reminder!"

deriving instance DecidableEq for Except

/-- `datetime.timedelta` raises OverflowError whenever the normalized day
count of the duration exceeds this bound (`timedelta.max` is
999,999,999 days 23:59:59.999999); for the integer inputs of
src/main.py lines 100-107 the constructor succeeds exactly when
`total seconds / 86400 ≤ timedelta_max_days`. -/
def timedelta_max_days : Nat := 999999999

/-- `parse_reminder` (src/main.py lines 85-114).  Returns
`.ok (some (delay in seconds, message, original_time_string))` on a match,
`.ok none` when the regex does not match, and `.error ()` when the
`timedelta` constructor (lines 100-107) raises OverflowError, i.e. when
the duration's normalized day count exceeds `timedelta_max_days`. -/
def parse_reminder (text : String) :
    Except Unit (Option (Nat × String × String)) :=
  let t1 := text.data.dropWhile isSpace
  let digits := t1.takeWhile Char.isDigit
  let rest1 := t1.dropWhile Char.isDigit
  if digits.isEmpty then .ok none
  else
    match rest1.dropWhile isSpace with
    | [] => .ok none
    | u :: rest3 =>
      if isUnit u then
        let captured := (rest3.dropWhile isSpace).takeWhile (fun c => ¬ c = '\n')
        let value := digitsToNat digits
        let original_time_string := String.mk ((Nat.repr value).data ++ [u.toLower])
        let unitL := u.toLower
        let deltaOpt : Option Nat :=
          if unitL = 's' then some value
          else if unitL = 'm' then some (value * 60)
          else if unitL = 'h' then some (value * 3600)
          else if unitL = 'd' then some (value * 86400)
          else none
        match deltaOpt with
        | none => .ok none
        | some delta =>
          if delta / 86400 ≤ timedelta_max_days then
            let message := if (strip captured).isEmpty then defaultMessage.data else captured
            .ok (some (delta, String.mk (strip message), original_time_string))
          else .error ()
      else .ok none

/-- C3: Command Parser concrete behaviour — "5m Check the oven" gives a
5-minute delay with message "Check the oven"; "10M" gives a 10-minute delay
with the default message (unit matched case-insensitively, empty message
replaced); "hello" and "3x do it" fail to match
(src/main.py lines 85-114). -/
theorem parse_reminder_concrete_cases :
    parse_reminder "5m Check the oven" = .ok (some (300, "Check the oven", "5m")) ∧
    parse_reminder "10M" = .ok (some (600, defaultMessage, "10m")) ∧
    parse_reminder "hello" = .ok none ∧
    parse_reminder "3x do it" = .ok none := by
  refine ⟨?_, ?_, ?_, ?_⟩ <;> decide

lemma not_space_of_digit (c : Char) (h : c.isDigit = true) : isSpace c = false := by
  simp only [isSpace, decide_eq_false_iff_not]
  rintro (rfl | rfl | rfl | rfl | rfl | rfl) <;> exact absurd h (by decide)

lemma takeWhile_all_append (p : Char → Bool) (l : List Char) (x : Char)
    (hl : ∀ c ∈ l, p c = true) (hx : p x = false) :
    (l ++ [x]).takeWhile p = l := by
  induction l with
  | nil => simp [List.takeWhile_cons, hx]
  | cons a l ih =>
    have ha : p a = true := hl a (List.mem_cons_self a l)
    simp [List.takeWhile_cons, ha, ih (fun c hc => hl c (List.mem_cons_of_mem a hc))]

lemma dropWhile_all_append (p : Char → Bool) (l : List Char) (x : Char)
    (hl : ∀ c ∈ l, p c = true) (hx : p x = false) :
    (l ++ [x]).dropWhile p = [x] := by
  induction l with
  | nil => simp [List.dropWhile_cons, hx]
  | cons a l ih =>
    have ha : p a = true := hl a (List.mem_cons_self a l)
    simp [List.dropWhile_cons, ha, ih (fun c hc => hl c (List.mem_cons_of_mem a hc))]

lemma strip_nil : strip [] = [] := rfl

lemma strip_defaultMessage : String.mk (strip defaultMessage.data) = defaultMessage := by
  decide

/-- C6 counterexample: the code does enforce an upper bound on the
magnitude — for thirty digits followed by the unit `d` the regex matches,
but `timedelta(days=123456789012345678901234567890)`
(src/main.py line 107) raises OverflowError because the normalized day
count exceeds 999,999,999, so `parse_reminder` raises instead of returning
a delay. -/
theorem parse_reminder_overflow_counterexample :
    parse_reminder "123456789012345678901234567890d" = .error () ∧
    (∀ c ∈ "123456789012345678901234567890".data, c.isDigit = true) ∧
    isUnit 'd' = true ∧
    ¬ digitsToNat "123456789012345678901234567890".data * unitMult 'd' / 86400 ≤
        timedelta_max_days := by
  refine ⟨by decide, by decide, by decide, by decide⟩

/-- C6 (amended): Magnitude bound — for every input of one or more decimal
digits (of any length) followed by a valid unit in {s, m, h, d}, the regex
matches and the magnitude is parsed as an unbounded non-negative integer;
the parse returns the corresponding delay exactly when the duration's
normalized day count is at most 999,999,999, and raises the `timedelta`
constructor's OverflowError beyond that — so an upper bound is enforced
(src/main.py lines 90-109). -/
theorem parse_reminder_magnitude_bound (ds : List Char) (u : Char)
    (hne : ds ≠ []) (hdig : ∀ c ∈ ds, c.isDigit = true) (hu : u ∈ unitChars) :
    parse_reminder (String.mk (ds ++ [u])) =
      (if digitsToNat ds * unitMult u.toLower / 86400 ≤ timedelta_max_days then
        .ok (some (digitsToNat ds * unitMult u.toLower, defaultMessage,
          String.mk ((Nat.repr (digitsToNat ds)).data ++ [u.toLower])))
      else .error ()) := by
  have hEmpty : ds.isEmpty = false := by
    cases ds with
    | nil => exact absurd rfl hne
    | cons a l => rfl
  have hds : (ds ++ [u]).dropWhile isSpace = ds ++ [u] := by
    cases ds with
    | nil => exact absurd rfl hne
    | cons a l =>
      have ha := not_space_of_digit a (hdig a (List.mem_cons_self a l))
      simp [List.dropWhile_cons, ha]
  simp only [unitChars, List.mem_cons, List.not_mem_nil, or_false] at hu
  have hdu : u.isDigit = false := by
    rcases hu with rfl | rfl | rfl | rfl | rfl | rfl | rfl | rfl <;> decide
  have hsu : isSpace u = false := by
    rcases hu with rfl | rfl | rfl | rfl | rfl | rfl | rfl | rfl <;> decide
  have huu : isUnit u = true := by
    rcases hu with rfl | rfl | rfl | rfl | rfl | rfl | rfl | rfl <;> decide
  have hu4 : u.toLower = 's' ∨ u.toLower = 'm' ∨ u.toLower = 'h' ∨ u.toLower = 'd' := by
    rcases hu with rfl | rfl | rfl | rfl | rfl | rfl | rfl | rfl <;> simp
  have htake := takeWhile_all_append Char.isDigit ds u hdig hdu
  have hdrop := dropWhile_all_append Char.isDigit ds u hdig hdu
  have hdropu : List.dropWhile isSpace [u] = [u] := by
    simp [List.dropWhile_cons, hsu]
  simp only [parse_reminder]
  rw [hds, htake, hdrop, hEmpty, hdropu]
  simp only [Bool.false_eq_true, if_false, huu, if_true]
  rcases hu4 with h | h | h | h <;> rw [h] <;>
    simp [unitMult, strip_nil, strip_defaultMessage]

theorem parse_reminder_magnitude_bound_witness :
    ("30".data ≠ [] ∧ (∀ c ∈ "30".data, c.isDigit = true) ∧ 'd' ∈ unitChars ∧
      "123456789012345678901234567890".data ≠ [] ∧
      (∀ c ∈ "123456789012345678901234567890".data, c.isDigit = true)) ∧
    parse_reminder (String.mk ("30".data ++ ['d'])) =
      (if digitsToNat "30".data * unitMult 'd'.toLower / 86400 ≤ timedelta_max_days
       then .ok (some (digitsToNat "30".data * unitMult 'd'.toLower, defaultMessage,
         String.mk ((Nat.repr (digitsToNat "30".data)).data ++ ['d'.toLower])))
       else .error ()) ∧
    parse_reminder (String.mk ("123456789012345678901234567890".data ++ ['d'])) =
      (if digitsToNat "123456789012345678901234567890".data * unitMult 'd'.toLower /
            86400 ≤ timedelta_max_days
       then .ok (some (digitsToNat "123456789012345678901234567890".data *
           unitMult 'd'.toLower, defaultMessage,
         String.mk ((Nat.repr
           (digitsToNat "123456789012345678901234567890".data)).data ++ ['d'.toLower])))
       else .error ()) :=
  ⟨⟨by decide, by decide, by decide, by decide, by decide⟩,
    parse_reminder_magnitude_bound "30".data 'd' (by decide) (by decide) (by decide),
    parse_reminder_magnitude_bound "123456789012345678901234567890".data 'd'
      (by decide) (by decide) (by decide)⟩

/-- C7 counterexample: for the input "5m a\nb" the returned message is "a",
but the remainder of the input after the unit character is " a\nb" — neither
the raw remainder nor its trimmed form (and the remainder is not
whitespace-only, so the default-substitution exception does not apply).  The
Python regex group `(.*)` stops at the first newline, so the message is not
the remainder of the string (src/main.py lines 90-95). -/
theorem parse_reminder_message_counterexample :
    parse_reminder "5m a\nb" = .ok (some (300, "a", "5m")) ∧
    strip " a\nb".data ≠ [] ∧
    "a".data ≠ " a\nb".data ∧
    "a".data ≠ strip " a\nb".data := by
  refine ⟨?_, ?_, ?_, ?_⟩ <;> decide

/-- C7 (amended): Message-is-first-line-of-remainder — on every successful
parse the input decomposes as optional whitespace, digits, optional
whitespace, a unit character and a remainder, and the returned message is
obtained from that remainder by skipping leading whitespace, truncating at
the first newline and trimming; if that is empty or whitespace-only it is
replaced by the fixed default string (src/main.py lines 90-114). -/
theorem parse_reminder_message_spec (text : String) (d : Nat) (msg ts : String)
    (h : parse_reminder text = .ok (some (d, msg, ts))) :
    ∃ ws ds ws2 u rest, text.data = ws ++ (ds ++ (ws2 ++ u :: rest)) ∧
      (∀ c ∈ ws, isSpace c = true) ∧ ds ≠ [] ∧ (∀ c ∈ ds, c.isDigit = true) ∧
      (∀ c ∈ ws2, isSpace c = true) ∧ isUnit u = true ∧
      msg = (if (strip ((rest.dropWhile isSpace).takeWhile (fun c => ¬ c = '\n'))).isEmpty
             then defaultMessage
             else String.mk (strip ((rest.dropWhile isSpace).takeWhile (fun c => ¬ c = '\n')))) := by
  unfold parse_reminder at h
  simp only [] at h
  split at h
  · exact Option.noConfusion (Except.ok.inj h)
  · rename_i hni
    split at h
    · exact Option.noConfusion (Except.ok.inj h)
    · rename_i u rest3 hsplit
      split at h
      · rename_i huu
        split at h
        · exact Option.noConfusion (Except.ok.inj h)
        · rename_i delta hdelta
          split at h
          case isFalse => exact Except.noConfusion h
          case isTrue hbound =>
          have h := Option.some.inj (Except.ok.inj h)
          have hmsg := congrArg (fun x => x.2.1) h
          simp only [] at hmsg
          refine ⟨List.takeWhile isSpace text.data,
            List.takeWhile Char.isDigit (List.dropWhile isSpace text.data),
            List.takeWhile isSpace
              (List.dropWhile Char.isDigit (List.dropWhile isSpace text.data)),
            u, rest3, ?_, ?_, ?_, ?_, ?_, huu, ?_⟩
          · rw [← hsplit, List.takeWhile_append_dropWhile,
              List.takeWhile_append_dropWhile, List.takeWhile_append_dropWhile]
          · exact fun c hc => List.mem_takeWhile_imp hc
          · intro hEq
            exact hni (by rw [hEq]; rfl)
          · exact fun c hc => List.mem_takeWhile_imp hc
          · exact fun c hc => List.mem_takeWhile_imp hc
          · rw [← hmsg]
            by_cases hc : (strip (List.takeWhile (fun c => decide ¬ c = '\n')
                (List.dropWhile isSpace rest3))).isEmpty = true
            · rw [if_pos hc, if_pos hc]; decide
            · rw [if_neg hc, if_neg hc]
      · exact Option.noConfusion (Except.ok.inj h)

theorem parse_reminder_message_spec_witness :
    parse_reminder "5m Check the oven" = .ok (some (300, "Check the oven", "5m")) ∧
    (∃ ws ds ws2 u rest,
      "5m Check the oven".data = ws ++ (ds ++ (ws2 ++ u :: rest)) ∧
      (∀ c ∈ ws, isSpace c = true) ∧ ds ≠ [] ∧ (∀ c ∈ ds, c.isDigit = true) ∧
      (∀ c ∈ ws2, isSpace c = true) ∧ isUnit u = true ∧
      "Check the oven" =
        (if (strip ((rest.dropWhile isSpace).takeWhile (fun c => ¬ c = '\n'))).isEmpty
         then defaultMessage
         else String.mk (strip ((rest.dropWhile isSpace).takeWhile (fun c => ¬ c = '\n'))))) :=
  ⟨by decide,
    parse_reminder_message_spec "5m Check the oven" 300 "Check the oven" "5m" (by decide)⟩

/-! ## Activity model (apkit models as used by src/main.py)

`Note`, `Create`, `Mention` and the Accept produced by `Follow.accept` are
embedded structurally with the fields `src/main.py` reads or writes.  A
note's `tag` list may hold mentions or other tag kinds (the handler checks
`isinstance(tag, Mention)`). -/

structure Mention where
  href : String
  name : String
deriving DecidableEq

inductive Tag where
  | mention (m : Mention)
  | other
deriving DecidableEq

/-- `to` is a Lean keyword, so the recipient-list field `to` is named
`to_` here. -/
structure Note where
  id : String
  attributedTo : String
  inReplyTo : String
  content : String
  to_ : List String
  tag : List Tag
deriving DecidableEq

structure Create where
  id : String
  actor : String
  object : Note
  to_ : List String
deriving DecidableEq

/-- The Accept returned by `activity.accept(id=..., actor=actor)`
(src/main.py lines 232-235); `object` is the Follow being accepted. -/
structure AcceptActivity where
  id : String
  actor : String
  object : String
deriving DecidableEq

/-- The values `ACTIVITY_STORE` holds: the process only ever inserts notes
and creates (src/main.py lines 148-149, 291-292). -/
inductive Activity where
  | note (n : Note)
  | create (c : Create)
deriving DecidableEq

def Activity.id : Activity → String
  | .note n => n.id
  | .create c => c.id

/-- A federated actor profile as fetched over the transport: the fields
`src/main.py` reads (`id`, `preferredUsername`, `url`, inbox used by
`ctx.send`). -/
structure ActorProfile where
  id : String
  preferredUsername : String
  url : String
  inbox : String
deriving DecidableEq

/-- `ActorKey(key_id=actor.publicKey.id, private_key=private_key)`
(src/main.py line 71). -/
structure ActorKey where
  key_id : String
  private_key : RSAPrivateKey
deriving DecidableEq

/-- `get_keys_for_actor` (src/main.py lines 69-72): the single keypair for
this process's own actor URI, an empty list otherwise. -/
def get_keys_for_actor (k : RSAPrivateKey) (identifier : String) : List ActorKey :=
  if identifier = actorUri then [⟨actorUri ++ "#main-key", k⟩] else []

/-! ## Activity Store and Response Cache (src/main.py lines 79-82) -/

def Store := String → Option Activity

def emptyStore : Store := fun _ => none

/-- `ACTIVITY_STORE[key] = a` — dictionary assignment with an explicit key
expression (each call site passes the activity's own id). -/
def storeInsert (store : Store) (key : String) (a : Activity) : Store :=
  fun x => if x = key then some a else store x

structure CacheEntry where
  activity : Activity
  timestamp : Nat
deriving DecidableEq

def Cache := String → Option CacheEntry

def emptyCache : Cache := fun _ => none

def cacheInsert (cache : Cache) (key : String) (e : CacheEntry) : Cache :=
  fun x => if x = key then some e else cache x

/-- `CACHE_TTL = timedelta(minutes=5)` (src/main.py line 82), in seconds;
timestamps are modelled as seconds. -/
def CACHE_TTL : Nat := 300

/-! ## Fresh activity URIs (src/main.py lines 133, 142, 233, 277, 285) -/

def mkNoteId (u : String) : String := "https://" ++ HOST ++ "/notes/" ++ u

def mkCreateId (u : String) : String := "https://" ++ HOST ++ "/creates/" ++ u

/-- `f"https://{HOST}/activity/follows/{follower_actor}"`
(src/main.py line 233): the id of the Accept is built from the fetched
follower actor's string representation, not from a UUID. -/
def mkAcceptId (followerRepr : String) : String :=
  "https://" ++ HOST ++ "/activity/follows/" ++ followerRepr

/-- The last path segment of a URI (the part after the final slash). -/
def lastSegment (s : String) : String :=
  String.mk ((s.data.reverse.takeWhile (fun c => ¬ c = '/')).reverse)

def isHexDigit (c : Char) : Bool :=
  c.isDigit || (decide ('a' ≤ c) && decide (c ≤ 'f'))

/-- The textual form of `uuid.uuid4()`: 36 characters, hyphens at positions
8, 13, 18 and 23, lower-case hex digits elsewhere. -/
def isUuidString (s : String) : Bool :=
  decide (s.data.length = 36) &&
    (List.range 36).all (fun i =>
      if i = 8 ∨ i = 13 ∨ i = 18 ∨ i = 23 then decide (s.data.getD i ' ' = '-')
      else isHexDigit (s.data.getD i ' '))

/-! ## Per-object fetch endpoints (src/main.py lines 186-216) -/

inductive FetchResponse where
  | ok (a : Activity)
  | notFound
deriving DecidableEq

structure FetchResult where
  response : FetchResponse
  cache : Cache
  storeReads : Nat

/-- The body shared verbatim by `get_note_endpoint`
(src/main.py lines 192-200) and `get_create_endpoint` (lines 208-216):
serve a cache entry younger than the TTL; otherwise consult the store,
caching a hit with a fresh timestamp and answering 404 on a miss.
`storeReads` counts the store lookups this request performs. -/
def cachedFetch (store : Store) (cache : Cache) (now : Nat) (uri : String) :
    FetchResult :=
  match cache uri with
  | some entry =>
    if now - entry.timestamp < CACHE_TTL then ⟨.ok entry.activity, cache, 0⟩
    else
      match store uri with
      | some a => ⟨.ok a, cacheInsert cache uri ⟨a, now⟩, 1⟩
      | none => ⟨.notFound, cache, 1⟩
  | none =>
    match store uri with
    | some a => ⟨.ok a, cacheInsert cache uri ⟨a, now⟩, 1⟩
    | none => ⟨.notFound, cache, 1⟩

/-- `get_note_endpoint` (src/main.py lines 186-200). -/
def get_note_endpoint (store : Store) (cache : Cache) (now : Nat)
    (note_id : String) : FetchResult :=
  cachedFetch store cache now (mkNoteId note_id)

/-- `get_create_endpoint` (src/main.py lines 202-216). -/
def get_create_endpoint (store : Store) (cache : Cache) (now : Nat)
    (create_id : String) : FetchResult :=
  cachedFetch store cache now (mkCreateId create_id)

/-! ## Content processing of an incoming mention (src/main.py lines 261-263)

`re.sub('<[^<]+?>', '', content)` removes every leftmost-first match of
`<`, one or more non-`<` characters (non-greedily, so up to the first `>`),
then `>`.  `str.replace(sub, '')` removes every occurrence of `sub` left to
right.  Both are embedded with an explicit fuel argument equal to the input
length; every step consumes at least one character, so the fuel never runs
out. -/

/-- Given the characters following a `<`, find the end of a
`<[^<]+?>` match: at least one character, none of them `<`, ending at the
first `>` (the mandatory first character may itself be `>`). -/
def scanToGt : List Char → Option (List Char)
  | [] => none
  | c :: rest => if c = '>' then some rest else if c = '<' then none else scanToGt rest

def tagEnd : List Char → Option (List Char)
  | [] => none
  | c :: rest => if c = '<' then none else scanToGt rest

def stripTagsAux : Nat → List Char → List Char
  | 0, l => l
  | _ + 1, [] => []
  | fuel + 1, c :: rest =>
    if c = '<' then
      match tagEnd rest with
      | some rest2 => stripTagsAux fuel rest2
      | none => c :: stripTagsAux fuel rest
    else c :: stripTagsAux fuel rest

/-- `re.sub('<[^<]+?>', '', l)` (src/main.py line 261). -/
def stripTags (l : List Char) : List Char := stripTagsAux l.length l

def removeSubAux (pat : List Char) : Nat → List Char → List Char
  | 0, l => l
  | _ + 1, [] => []
  | fuel + 1, c :: rest =>
    if !pat.isEmpty && pat.isPrefixOf (c :: rest) then
      removeSubAux pat fuel ((c :: rest).drop pat.length)
    else c :: removeSubAux pat fuel rest

/-- Python `str.replace(pat, '')`: remove every occurrence of `pat`,
scanning left to right. -/
def removeSub (pat l : List Char) : List Char := removeSubAux pat l.length l

/-- `bot_mention_str = f"@{actor.preferredUsername}"`
(src/main.py line 262). -/
def bot_mention_str : String := "@" ++ USER_ID

/-- Lines 261-263 of src/main.py: strip markup, remove the literal mention
token, trim. -/
def commandText (content : String) : String :=
  String.mk (strip (removeSub bot_mention_str.data (stripTags content.data)))

/-! ## Outbound activity construction and the handlers -/

/-- One `ctx.send(keys, target, activity)` call with a Create payload. -/
structure Delivery where
  keys : List ActorKey
  target : ActorProfile
  activity : Create
deriving DecidableEq

/-- One `ctx.send(keys, target, activity)` call with an Accept payload. -/
structure AcceptDelivery where
  keys : List ActorKey
  target : ActorProfile
  activity : AcceptActivity
deriving DecidableEq

/-- The arguments of one `asyncio.create_task(send_reminder(...))`
(src/main.py line 271). -/
structure ScheduledReminder where
  delay : Nat
  message : String
  target : ActorProfile
  originNote : Note
deriving DecidableEq

/-- The h-card span interpolated into the reminder content
(src/main.py line 136). -/
def mentionSpan (target : ActorProfile) : String :=
  "<p><span class=\"h-card\" translate=\"no\"><a href=\"" ++ target.url ++
    "\" class=\"u-url mention\">@<span>" ++ target.preferredUsername ++
    "</span></a></span></p>"

/-- The reminder note content (src/main.py line 136). -/
def reminderContent (target : ActorProfile) (message : String) : String :=
  "<p>🔔 Reminder for " ++ mentionSpan target ++ ": " ++ message ++ "</p>"

/-- Everything `send_reminder` does after its delay elapses. -/
structure SendReminderOutcome where
  target : ActorProfile
  note : Note
  create : Create
  store : Store
  delivery : Delivery

/-- `send_reminder` (src/main.py lines 116-153), after the sleep.  The
re-fetch of the target actor (lines 123-127) is wrapped in
`try/except Exception: pass`, so an exception leaves the previously known
snapshot bound to `target_actor`; but the fetch can also return no actor
without raising (main.py itself guards that case at lines 229 and 270), in
which case line 125 rebinds `target_actor` to `None` inside the `try` and
line 130 `target_actor.id` — outside the `try` — raises AttributeError,
aborting the task before any Note or Create is constructed, stored or
delivered (`Except.error`).  Otherwise the note and create are built,
stored under their own ids, and the create is sent to the target with this
actor's keys. -/
def send_reminder (k : RSAPrivateKey) (store : Store) (target_actor : ActorProfile)
    (original_note_id : String) (message : String)
    (fetchResult : Except Unit (Option ActorProfile)) (u1 u2 : String) :
    Except Unit SendReminderOutcome :=
  let targetOpt : Option ActorProfile := match fetchResult with
    | .ok a => a
    | .error _ => some target_actor
  match targetOpt with
  | none => .error ()
  | some target =>
  let mention_tag : Mention := ⟨target.id, "@" ++ target.preferredUsername⟩
  let reminder_note : Note :=
    { id := mkNoteId u1, attributedTo := actorUri, inReplyTo := original_note_id,
      content := reminderContent target message, to_ := [target.id],
      tag := [Tag.mention mention_tag] }
  let reminder_create : Create :=
    { id := mkCreateId u2, actor := actorUri, object := reminder_note,
      to_ := [target.id] }
  let store1 := storeInsert store reminder_note.id (.note reminder_note)
  let store2 := storeInsert store1 reminder_create.id (.create reminder_create)
  .ok ({ target := target, note := reminder_note, create := reminder_create,
         store := store2,
         delivery := ⟨get_keys_for_actor k ("https://" ++ HOST ++ "/actor"),
           target, reminder_create⟩ })

/-- The object of an incoming Create: the handler proceeds only when it is
a Note (src/main.py line 244). -/
inductive IncomingObject where
  | note (n : Note)
  | other
deriving DecidableEq

structure CreateIn where
  actor : String
  object : IncomingObject
deriving DecidableEq

/-- Line 249-254 of src/main.py: some tag is a Mention whose href is this
actor's id. -/
def mentionsActor (note : Note) : Bool :=
  note.tag.any (fun t => match t with
    | .mention m => decide (m.href = actorUri)
    | .other => false)

/-- The fixed usage-help reply content (src/main.py line 274). -/
def usageHelp : String :=
  "<p>🤔 Sorry, I didn\x27t understand. Use format: <code>@reminder [time] [message]</code>.</p><p>Example: <code>@reminder 10m Check the oven</code></p>"

/-- The acknowledgement reply content (src/main.py line 272). -/
def ackContent (time_str : String) : String :=
  "<p>✅ OK! I\x27ll remind you in " ++ time_str ++ ".</p>"

structure CreateOutcome where
  status : Nat
  store : Store
  scheduled : List ScheduledReminder
  delivered : List Delivery

/-- `on_create_activity` (src/main.py lines 241-297).  `senderFetch` is the
outcome of `client.actor.fetch(activity.actor)` (line 268), which is not
inside any try block: an exception (`Except.error`) propagates out of the
handler.  A `None` fetch result makes the condition on line 270 false, and
both reply branches then dereference `sender_actor.id` (line 281), raising
`AttributeError` — also modelled as `Except.error`.  An OverflowError from
`parse_reminder` (line 265, before the fetch) likewise propagates out of
the handler.  `delay and message` is Python truthiness: a zero `timedelta`
and an empty string are falsy. -/
def on_create_activity (k : RSAPrivateKey) (store : Store) (incoming : CreateIn)
    (senderFetch : Except Unit (Option ActorProfile)) (u1 u2 : String) :
    Except Unit CreateOutcome :=
  match incoming.object with
  | .other => .ok ⟨202, store, [], []⟩
  | .note note =>
    if mentionsActor note then
      match parse_reminder (commandText note.content) with
      | .error e => .error e
      | .ok parsed =>
        match senderFetch with
        | .error _ => .error ()
        | .ok none => .error ()
        | .ok (some sender_actor) =>
        let branch : List ScheduledReminder × String :=
          match parsed with
          | some (delay, message, time_str) =>
            if delay ≠ 0 ∧ ¬ message.isEmpty then
              ([⟨delay, message, sender_actor, note⟩], ackContent time_str)
            else ([], usageHelp)
          | none => ([], usageHelp)
        let reply_note : Note :=
          { id := mkNoteId u1, attributedTo := actorUri, inReplyTo := note.id,
            content := branch.2, to_ := [sender_actor.id],
            tag := [Tag.mention ⟨sender_actor.id,
              "@" ++ sender_actor.preferredUsername⟩] }
        let reply_create : Create :=
          { id := mkCreateId u2, actor := actorUri, object := reply_note,
            to_ := [sender_actor.id] }
        let store1 := storeInsert store reply_note.id (.note reply_note)
        let store2 := storeInsert store1 reply_create.id (.create reply_create)
        .ok ⟨202, store2, branch.1,
          [⟨get_keys_for_actor k ("https://" ++ HOST ++ "/actor"), sender_actor,
            reply_create⟩]⟩
    else .ok ⟨202, store, [], []⟩

structure FollowOutcome where
  status : Nat
  delivered : List AcceptDelivery
deriving DecidableEq

/-- `on_follow_activity` (src/main.py lines 220-239).  `fetchResult` is the
outcome of fetching the follower's actor record: an exception is uncaught
(`Except.error`), a falsy result yields 400 with no delivery, and a fetched
actor yields a signed Accept whose id interpolates the actor object's
string representation (`followerRepr`). -/
def on_follow_activity (k : RSAPrivateKey) (followId : String)
    (fetchResult : Except Unit (Option ActorProfile))
    (followerRepr : ActorProfile → String) : Except Unit FollowOutcome :=
  match fetchResult with
  | .error _ => .error ()
  | .ok none => .ok ⟨400, []⟩
  | .ok (some follower_actor) =>
    let accept_activity : AcceptActivity :=
      { id := mkAcceptId (followerRepr follower_actor), actor := actorUri,
        object := followId }
    .ok ⟨202, [⟨get_keys_for_actor k ("https://" ++ HOST ++ "/actor"),
      follower_actor, accept_activity⟩]⟩

/-! ## Webfinger endpoint (src/main.py lines 162-174) -/

structure WebfingerResource where
  url : Option String
  username : String
  host : String
deriving DecidableEq

structure WebfingerLink where
  rel : String
  type : String
  href : String
deriving DecidableEq

inductive WebfingerResponse where
  | jrd (subject : WebfingerResource) (links : List WebfingerLink)
  | notFound
deriving DecidableEq

def selfLink : WebfingerLink := ⟨"self", "application/activity+json", actorUri⟩

/-- Python truthiness of `acct.url` in `if not acct.url:`. -/
def urlFalsy : Option String → Bool
  | none => true
  | some s => s.isEmpty

/-- `webfinger_endpoint` (src/main.py lines 162-174). -/
def webfinger_endpoint (acct : WebfingerResource) : WebfingerResponse :=
  if urlFalsy acct.url then
    if acct.username = USER_ID ∧ acct.host = HOST then .jrd acct [selfLink]
    else .notFound
  else
    match acct.url with
    | some u =>
      if u = "https://" ++ HOST ++ "/actor" then .jrd acct [selfLink]
      else .notFound
    | none => .notFound

/-! ## Store and cache invariants (claim C10) -/

/-- Every URI in the store maps to an activity whose id is that URI. -/
def StoreInv (store : Store) : Prop :=
  ∀ uri a, store uri = some a → a.id = uri

/-- Every cached entry holds an activity whose id is the cached URI. -/
def CacheInv (cache : Cache) : Prop :=
  ∀ uri e, cache uri = some e → e.activity.id = uri

lemma mkNoteId_data (u : String) :
    (mkNoteId u).data = "https://apsig.amase.cc/notes/".data ++ u.data := rfl

lemma mkCreateId_data (u : String) :
    (mkCreateId u).data = "https://apsig.amase.cc/creates/".data ++ u.data := rfl

lemma mkNoteId_ne_mkCreateId (u1 u2 : String) : mkNoteId u1 ≠ mkCreateId u2 := by
  intro h
  have hd := congrArg String.data h
  rw [mkNoteId_data, mkCreateId_data] at hd
  have h23 := congrArg (fun l => l[23]?) hd
  simp only [] at h23
  rw [List.getElem?_append_left (by decide), List.getElem?_append_left (by decide)]
    at h23
  exact absurd h23 (by decide)

lemma mkNoteId_inj (v1 v2 : String) (h : mkNoteId v1 = mkNoteId v2) : v1 = v2 := by
  have hd := congrArg String.data h
  rw [mkNoteId_data, mkNoteId_data] at hd
  exact congrArg String.mk (List.append_cancel_left hd)

lemma mkCreateId_inj (v1 v2 : String) (h : mkCreateId v1 = mkCreateId v2) :
    v1 = v2 := by
  have hd := congrArg String.data h
  rw [mkCreateId_data, mkCreateId_data] at hd
  exact congrArg String.mk (List.append_cancel_left hd)

/-- C2: Read-through cache semantics of the per-object fetch endpoints
(src/main.py lines 186-200) — a cache entry strictly younger than the
5-minute TTL is served without touching the Activity Store; otherwise a
store hit is returned and cached with a fresh timestamp, and a store miss
yields 404 with no cache insertion.  Consequently two fetches of a stored
URI within the TTL return the same activity touching the store exactly
once, and a fetch past the TTL re-reads the store yet returns the same
value. -/
theorem get_note_read_through (store : Store) (cache : Cache) (now : Nat)
    (nid : String) :
    (∀ e, cache (mkNoteId nid) = some e → now - e.timestamp < CACHE_TTL →
      get_note_endpoint store cache now nid = ⟨.ok e.activity, cache, 0⟩) ∧
    (∀ a, (∀ e, cache (mkNoteId nid) = some e → ¬ now - e.timestamp < CACHE_TTL) →
      store (mkNoteId nid) = some a →
      (get_note_endpoint store cache now nid).response = .ok a ∧
      (get_note_endpoint store cache now nid).storeReads = 1 ∧
      (get_note_endpoint store cache now nid).cache (mkNoteId nid) = some ⟨a, now⟩) ∧
    ((∀ e, cache (mkNoteId nid) = some e → ¬ now - e.timestamp < CACHE_TTL) →
      store (mkNoteId nid) = none →
      get_note_endpoint store cache now nid = ⟨.notFound, cache, 1⟩) ∧
    (∀ a t1, store (mkNoteId nid) = some a → cache (mkNoteId nid) = none →
      t1 - now < CACHE_TTL →
      (get_note_endpoint store cache now nid).response = .ok a ∧
      (get_note_endpoint store cache now nid).storeReads = 1 ∧
      (get_note_endpoint store
        (get_note_endpoint store cache now nid).cache t1 nid).response = .ok a ∧
      (get_note_endpoint store
        (get_note_endpoint store cache now nid).cache t1 nid).storeReads = 0) ∧
    (∀ a t2, store (mkNoteId nid) = some a → cache (mkNoteId nid) = none →
      CACHE_TTL ≤ t2 - now →
      (get_note_endpoint store
        (get_note_endpoint store cache now nid).cache t2 nid).response = .ok a ∧
      (get_note_endpoint store
        (get_note_endpoint store cache now nid).cache t2 nid).storeReads = 1) := by
  refine ⟨?_, ?_, ?_, ?_, ?_⟩
  · intro e he hf
    simp [get_note_endpoint, cachedFetch, he, hf]
  · intro a hstale hs
    cases hc : cache (mkNoteId nid) with
    | none => simp [get_note_endpoint, cachedFetch, hc, hs, cacheInsert]
    | some e =>
      have hst := hstale e hc
      simp [get_note_endpoint, cachedFetch, hc, hst, hs, cacheInsert]
  · intro hstale hs
    cases hc : cache (mkNoteId nid) with
    | none => simp [get_note_endpoint, cachedFetch, hc, hs]
    | some e =>
      have hst := hstale e hc
      simp [get_note_endpoint, cachedFetch, hc, hst, hs]
  · intro a t1 hs hc hf
    have h1 : get_note_endpoint store cache now nid =
        ⟨.ok a, cacheInsert cache (mkNoteId nid) ⟨a, now⟩, 1⟩ := by
      simp [get_note_endpoint, cachedFetch, hc, hs]
    refine ⟨by rw [h1], by rw [h1], ?_, ?_⟩
    · rw [h1]
      simp [get_note_endpoint, cachedFetch, cacheInsert, hf]
    · rw [h1]
      simp [get_note_endpoint, cachedFetch, cacheInsert, hf]
  · intro a t2 hs hc hf
    have h1 : get_note_endpoint store cache now nid =
        ⟨.ok a, cacheInsert cache (mkNoteId nid) ⟨a, now⟩, 1⟩ := by
      simp [get_note_endpoint, cachedFetch, hc, hs]
    have hstale : ¬ t2 - now < CACHE_TTL := by omega
    refine ⟨?_, ?_⟩ <;>
    · rw [h1]
      simp [get_note_endpoint, cachedFetch, cacheInsert, hstale, hs]

/-- A concrete stored note used by witnesses. -/
def sampleNote : Note :=
  { id := mkNoteId "n1", attributedTo := actorUri, inReplyTo := "",
    content := "<p>hello</p>", to_ := [], tag := [] }

/-- A concrete one-entry store used by witnesses. -/
def sampleStore : Store := storeInsert emptyStore (mkNoteId "n1") (.note sampleNote)

theorem get_note_read_through_witness :
    (sampleStore (mkNoteId "n1") = some (.note sampleNote) ∧
      emptyCache (mkNoteId "n1") = none ∧ (100 : Nat) - 0 < CACHE_TTL ∧
      CACHE_TTL ≤ (400 : Nat) - 0) ∧
    ((get_note_endpoint sampleStore emptyCache 0 "n1").response =
        .ok (.note sampleNote) ∧
      (get_note_endpoint sampleStore emptyCache 0 "n1").storeReads = 1 ∧
      (get_note_endpoint sampleStore
        (get_note_endpoint sampleStore emptyCache 0 "n1").cache 100 "n1").response =
        .ok (.note sampleNote) ∧
      (get_note_endpoint sampleStore
        (get_note_endpoint sampleStore emptyCache 0 "n1").cache 100 "n1").storeReads =
        0) ∧
    ((get_note_endpoint sampleStore
        (get_note_endpoint sampleStore emptyCache 0 "n1").cache 400 "n1").response =
        .ok (.note sampleNote) ∧
      (get_note_endpoint sampleStore
        (get_note_endpoint sampleStore emptyCache 0 "n1").cache 400 "n1").storeReads =
        1) :=
  ⟨⟨by decide, rfl, by decide, by decide⟩,
    (get_note_read_through sampleStore emptyCache 0 "n1").2.2.2.1
      (.note sampleNote) 100 (by decide) rfl (by decide),
    (get_note_read_through sampleStore emptyCache 0 "n1").2.2.2.2
      (.note sampleNote) 400 (by decide) rfl (by decide)⟩

/-- A concrete remote sender used by counterexamples and witnesses. -/
def exampleSender : ActorProfile :=
  { id := "https://example.org/users/alice", preferredUsername := "alice",
    url := "https://example.org/@alice",
    inbox := "https://example.org/users/alice/inbox" }

/-- A concrete incoming note that mentions this actor but whose command
text ("hello") fails to parse. -/
def exampleBadNote : Note :=
  { id := "https://example.org/notes/1", attributedTo := exampleSender.id,
    inReplyTo := "", content := "<p>@reminder hello</p>", to_ := [actorUri],
    tag := [Tag.mention ⟨actorUri, "@reminder"⟩] }

def exampleBadCreate : CreateIn := ⟨exampleSender.id, .note exampleBadNote⟩

/-- C4 counterexample: not every failure of the re-fetch is tolerated —
when the re-fetch resolves to no actor without raising, line 125 rebinds
`target_actor` to `None` inside the `try` and line 130 `target_actor.id`
(outside the `try`) raises AttributeError, aborting the reminder before
any Note or Create is constructed, stored or delivered. -/
theorem send_reminder_none_counterexample :
    send_reminder toyKey emptyStore exampleSender "https://example.org/notes/1"
      "msg" (.ok none) "u1" "u2" = .error () := rfl

/-- C4 (amended): Delivery Scheduler tolerance of re-fetch failure — when
the re-fetch of the target actor's profile raises, the task continues with
the previously known actor snapshot and still constructs the reminder Note
and the wrapping Create, stores both in the Activity Store under their
ids, and attempts delivery of the signed Create to the target; when the
re-fetch returns an actor it is used instead; but when the re-fetch
returns no actor without raising, the task crashes (AttributeError at
line 130, outside the try) and the reminder is aborted with nothing
constructed, stored or delivered (src/main.py lines 116-153). -/
theorem send_reminder_refetch_failure_modes (k : RSAPrivateKey)
    (store : Store) (target_actor : ActorProfile) (original_note_id : String)
    (message : String) (u1 u2 : String) :
    (∃ out, send_reminder k store target_actor original_note_id message
        (.error ()) u1 u2 = .ok out ∧
      out.target = target_actor ∧
      out.note =
        { id := mkNoteId u1, attributedTo := actorUri,
          inReplyTo := original_note_id,
          content := reminderContent target_actor message,
          to_ := [target_actor.id],
          tag := [Tag.mention ⟨target_actor.id,
            "@" ++ target_actor.preferredUsername⟩] } ∧
      out.create =
        { id := mkCreateId u2, actor := actorUri, object := out.note,
          to_ := [target_actor.id] } ∧
      out.store (mkNoteId u1) = some (.note out.note) ∧
      out.store (mkCreateId u2) = some (.create out.create) ∧
      out.delivery = ⟨get_keys_for_actor k actorUri, target_actor, out.create⟩) ∧
    send_reminder k store target_actor original_note_id message
      (.ok none) u1 u2 = .error () ∧
    (∀ a, ∃ out, send_reminder k store target_actor original_note_id message
        (.ok (some a)) u1 u2 = .ok out ∧ out.target = a) := by
  refine ⟨⟨_, rfl, rfl, rfl, rfl, ?_, ?_, rfl⟩, rfl, fun a => ⟨_, rfl, rfl⟩⟩
  · simp [send_reminder, storeInsert, mkNoteId_ne_mkCreateId u1 u2]
  · simp [send_reminder, storeInsert]

/-- C5 counterexample: a verified Create(Note) that mentions this actor and
whose command text fails to parse, handled while the sender-profile fetch
(src/main.py line 268, outside any try block) raises: the handler itself
raises — the remote peer receives a server error — and no usage-help reply
is produced, contradicting "never returns an error to the remote peer,
sends exactly one signed reply". -/
theorem on_create_parse_failure_counterexample :
    mentionsActor exampleBadNote = true ∧
    parse_reminder (commandText exampleBadNote.content) = .ok none ∧
    on_create_activity toyKey emptyStore exampleBadCreate (.error ()) "u1" "u2" =
      .error () := by
  refine ⟨by decide, by decide, rfl⟩

/-- C5 (amended): Parse-failure handling — for every verified Create(Note)
carrying a mention of this actor whose command text fails to parse,
provided the sender's profile fetch returns an actor, the handler answers
202 and sends exactly one signed Create/Note reply containing the fixed
usage-help message, scheduling zero reminder deliveries; if the sender
fetch raises or returns no actor the handler itself errors and no reply is
sent (src/main.py lines 261-297). -/
theorem on_create_parse_failure_reply (k : RSAPrivateKey) (store : Store)
    (incoming : CreateIn) (note : Note) (sender : ActorProfile) (u1 u2 : String)
    (hobj : incoming.object = .note note)
    (hment : mentionsActor note = true)
    (hparse : parse_reminder (commandText note.content) = .ok none) :
    ∃ out, on_create_activity k store incoming (.ok (some sender)) u1 u2 =
        .ok out ∧
      out.status = 202 ∧ out.scheduled = [] ∧
      (∃ reply_note reply_create,
        out.delivered = [⟨get_keys_for_actor k actorUri, sender, reply_create⟩] ∧
        reply_create.object = reply_note ∧
        reply_note.content = usageHelp ∧
        reply_note.inReplyTo = note.id ∧
        reply_note.id = mkNoteId u1 ∧ reply_create.id = mkCreateId u2 ∧
        out.store reply_note.id = some (.note reply_note) ∧
        out.store reply_create.id = some (.create reply_create)) := by
  obtain ⟨sactor, obj⟩ := incoming
  simp only [] at hobj
  subst hobj
  simp only [on_create_activity, hment, hparse, if_true]
  refine ⟨_, rfl, rfl, rfl, _, _, rfl, rfl, rfl, rfl, rfl, rfl, ?_, ?_⟩
  · simp [storeInsert, mkNoteId_ne_mkCreateId u1 u2]
  · simp [storeInsert]

theorem on_create_parse_failure_reply_witness :
    (exampleBadCreate.object = .note exampleBadNote ∧
      mentionsActor exampleBadNote = true ∧
      parse_reminder (commandText exampleBadNote.content) = .ok none) ∧
    (∃ out, on_create_activity toyKey emptyStore exampleBadCreate
        (.ok (some exampleSender)) "u1" "u2" = .ok out ∧
      out.status = 202 ∧ out.scheduled = [] ∧
      (∃ reply_note reply_create,
        out.delivered =
          [⟨get_keys_for_actor toyKey actorUri, exampleSender, reply_create⟩] ∧
        reply_create.object = reply_note ∧
        reply_note.content = usageHelp ∧
        reply_note.inReplyTo = exampleBadNote.id ∧
        reply_note.id = mkNoteId "u1" ∧ reply_create.id = mkCreateId "u2" ∧
        out.store reply_note.id = some (.note reply_note) ∧
        out.store reply_create.id = some (.create reply_create))) :=
  ⟨⟨rfl, by decide, by decide⟩,
    on_create_parse_failure_reply toyKey emptyStore exampleBadCreate
      exampleBadNote exampleSender "u1" "u2" rfl (by decide) (by decide)⟩

/-- C8 counterexample: the Accept produced in response to a Follow is not
assigned a URI of the shape scheme://host/kind/uuid with a fresh UUID — its
id interpolates the follower actor's representation
(src/main.py line 233).  For a concrete follower the full handler output is
computed; the URI's last path segment is the follower's, not a UUID, and
the id is a fixed function of the follower, identical on every
re-handling of the same Follow. -/
theorem accept_uri_counterexample :
    on_follow_activity toyKey "https://example.org/follows/9"
        (.ok (some exampleSender)) (fun a => a.id) =
      .ok ⟨202, [⟨get_keys_for_actor toyKey actorUri, exampleSender,
        ⟨"https://apsig.amase.cc/activity/follows/https://example.org/users/alice",
          actorUri, "https://example.org/follows/9"⟩⟩]⟩ ∧
    lastSegment
        "https://apsig.amase.cc/activity/follows/https://example.org/users/alice" =
      "alice" ∧
    isUuidString "alice" = false := by
  refine ⟨rfl, by decide, by decide⟩

/-- C8 (amended): Activity URI shape — the acknowledgement / usage-help
reply pair and the reminder Note/Create pair are assigned URIs
`https://host/notes/<uuid>` and `https://host/creates/<uuid>` from the
fresh UUIDs drawn per activity, and these constructors are injective and
mutually disjoint, so fresh UUIDs give globally unique URIs; the Accept
produced for a Follow instead gets
`https://host/activity/follows/<follower-representation>`, a deterministic
function of the follower with no UUID component
(src/main.py lines 132-146, 232-235, 276-289). -/
theorem activity_uri_assignment (k : RSAPrivateKey) (store : Store)
    (target : ActorProfile) (oid msg : String)
    (f : Except Unit (Option ActorProfile))
    (u1 u2 v1 v2 : String) (incoming : CreateIn)
    (sf : Except Unit (Option ActorProfile)) (followId : String)
    (fa : ActorProfile) (rep : ActorProfile → String) :
    (∀ out, send_reminder k store target oid msg f u1 u2 = .ok out →
      out.note.id = "https://" ++ HOST ++ "/notes/" ++ u1 ∧
      out.create.id = "https://" ++ HOST ++ "/creates/" ++ u2) ∧
    (∀ out, on_create_activity k store incoming sf u1 u2 = .ok out →
      ∀ d ∈ out.delivered,
        d.activity.id = "https://" ++ HOST ++ "/creates/" ++ u2 ∧
        d.activity.object.id = "https://" ++ HOST ++ "/notes/" ++ u1) ∧
    (mkNoteId v1 = mkNoteId v2 → v1 = v2) ∧
    (mkCreateId v1 = mkCreateId v2 → v1 = v2) ∧
    mkNoteId v1 ≠ mkCreateId v2 ∧
    on_follow_activity k followId (.ok (some fa)) rep =
      .ok ⟨202, [⟨get_keys_for_actor k actorUri, fa,
        ⟨"https://" ++ HOST ++ "/activity/follows/" ++ rep fa, actorUri,
          followId⟩⟩]⟩ := by
  refine ⟨?_, ?_, mkNoteId_inj v1 v2, mkCreateId_inj v1 v2,
    mkNoteId_ne_mkCreateId v1 v2, rfl⟩
  · intro out hout
    cases f with
    | error e =>
      injection hout with hout
      rw [← hout]
      exact ⟨rfl, rfl⟩
    | ok oa =>
      cases oa with
      | none => exact Except.noConfusion hout
      | some a =>
        injection hout with hout
        rw [← hout]
        exact ⟨rfl, rfl⟩
  · intro out hout d hd
    obtain ⟨sactor, obj⟩ := incoming
    cases obj with
    | other =>
      simp only [on_create_activity] at hout
      injection hout with hout
      rw [← hout] at hd
      simp at hd
    | note note =>
      by_cases hment : mentionsActor note = true
      · cases hp : parse_reminder (commandText note.content) with
        | error e =>
          simp only [on_create_activity, hment, hp, if_true] at hout
          exact Except.noConfusion hout
        | ok parsed =>
          cases sf with
          | error e =>
            simp only [on_create_activity, hment, hp, if_true] at hout
            exact Except.noConfusion hout
          | ok so =>
            cases so with
            | none =>
              simp only [on_create_activity, hment, hp, if_true] at hout
              exact Except.noConfusion hout
            | some sender =>
              simp only [on_create_activity, hment, hp, if_true] at hout
              injection hout with hout
              rw [← hout] at hd
              simp only [List.mem_singleton] at hd
              subst hd
              exact ⟨rfl, rfl⟩
      · simp only [on_create_activity, hment, if_false] at hout
        injection hout with hout
        rw [← hout] at hd
        simp at hd

theorem activity_uri_assignment_witness :
    ("ua" : String) = "ua" ∧ mkNoteId "ua" ≠ mkCreateId "ua" ∧
    on_follow_activity toyKey "https://example.org/follows/9"
        (.ok (some exampleSender)) (fun a => a.id) =
      .ok ⟨202, [⟨get_keys_for_actor toyKey actorUri, exampleSender,
        ⟨"https://" ++ HOST ++ "/activity/follows/" ++ exampleSender.id, actorUri,
          "https://example.org/follows/9"⟩⟩]⟩ := by
  obtain ⟨h1, h2, h3, h4, h5, h6⟩ := activity_uri_assignment toyKey emptyStore
    exampleSender "o" "m" (.error ()) "ua" "ub" "ua" "ua" exampleBadCreate
    (.ok (some exampleSender)) "https://example.org/follows/9" exampleSender
    (fun a => a.id)
  exact ⟨h3 rfl, h5, h6⟩

/-- C9 counterexample: the discovery endpoint does not answer 404 to every
query other than the configured handle — a query by URL form whose `url`
equals the actor URI is answered 200 with the self link even though its
username/host pair is not the configured handle
(src/main.py lines 169-173). -/
theorem webfinger_url_counterexample :
    webfinger_endpoint ⟨some ("https://" ++ HOST ++ "/actor"), "bob",
        "example.org"⟩ =
      .jrd ⟨some ("https://" ++ HOST ++ "/actor"), "bob", "example.org"⟩
        [selfLink] ∧
    ¬ ("bob" = USER_ID ∧ "example.org" = HOST) ∧
    webfinger_endpoint ⟨some ("https://" ++ HOST ++ "/actor"), "bob",
        "example.org"⟩ ≠ .notFound := by
  refine ⟨by decide, by decide, by decide⟩

/-- C9 (amended): Discovery endpoint — a query is answered 200 with a
links document holding exactly the one self link to the actor precisely
when it is the configured username+host handle (with a falsy `url` field)
or a URL-form query for the actor URI itself; every other query is
answered 404 (src/main.py lines 162-174). -/
theorem webfinger_characterization (acct : WebfingerResource) :
    (webfinger_endpoint acct = .jrd acct [selfLink] ∨
      webfinger_endpoint acct = .notFound) ∧
    (webfinger_endpoint acct = .jrd acct [selfLink] ↔
      (urlFalsy acct.url = true ∧ acct.username = USER_ID ∧ acct.host = HOST) ∨
      (urlFalsy acct.url = false ∧ acct.url = some actorUri)) := by
  obtain ⟨url, username, host⟩ := acct
  cases url with
  | none =>
    by_cases h : username = USER_ID ∧ host = HOST
    · simp [webfinger_endpoint, urlFalsy, h]
    · simp [webfinger_endpoint, urlFalsy, h]
  | some s =>
    by_cases hs : s.isEmpty
    · by_cases h : username = USER_ID ∧ host = HOST
      · simp [webfinger_endpoint, urlFalsy, hs, h]
      · simp [webfinger_endpoint, urlFalsy, hs, h]
    · by_cases h : s = "https://" ++ HOST ++ "/actor"
      · subst h
        simp [webfinger_endpoint, urlFalsy, hs, actorUri]
      · simp [webfinger_endpoint, urlFalsy, hs, h, actorUri]

theorem webfinger_characterization_witness :
    webfinger_endpoint ⟨none, USER_ID, HOST⟩ =
      .jrd ⟨none, USER_ID, HOST⟩ [selfLink] :=
  (webfinger_characterization ⟨none, USER_ID, HOST⟩).2.mpr
    (Or.inl ⟨rfl, rfl, rfl⟩)

lemma emptyStore_inv : StoreInv emptyStore :=
  fun _ _ h => Option.noConfusion h

lemma emptyCache_inv : CacheInv emptyCache :=
  fun _ _ h => Option.noConfusion h

lemma storeInsert_inv (store : Store) (key : String) (a : Activity)
    (hs : StoreInv store) (ha : a.id = key) :
    StoreInv (storeInsert store key a) := by
  intro uri b h
  unfold storeInsert at h
  by_cases huri : uri = key
  · rw [if_pos huri] at h
    injection h with h
    rw [← h, ha, huri]
  · rw [if_neg huri] at h
    exact hs uri b h

lemma cacheInsert_inv (cache : Cache) (key : String) (e : CacheEntry)
    (hc : CacheInv cache) (he : e.activity.id = key) :
    CacheInv (cacheInsert cache key e) := by
  intro uri b h
  unfold cacheInsert at h
  by_cases huri : uri = key
  · rw [if_pos huri] at h
    injection h with h
    rw [← h, he, huri]
  · rw [if_neg huri] at h
    exact hc uri b h

/-- C10: Implicit store-key invariant — every insertion into the Activity
Store keys the activity by its own id (src/main.py lines 148-149, 291-292),
so the invariant "every stored URI maps to an activity whose id is that
URI" holds of the empty store and is preserved by both handlers; under it
(together with the corresponding cache invariant, which the read-through
fetch preserves) a per-object fetch only ever returns an activity whose id
is exactly the requested URI (src/main.py lines 186-200). -/
theorem store_key_invariant (store : Store) (cache : Cache)
    (k : RSAPrivateKey) (target : ActorProfile) (oid msg : String)
    (f : Except Unit (Option ActorProfile)) (u1 u2 : String)
    (incoming : CreateIn)
    (sf : Except Unit (Option ActorProfile)) (now : Nat) (uri : String) :
    StoreInv emptyStore ∧ CacheInv emptyCache ∧
    (StoreInv store → ∀ out,
      send_reminder k store target oid msg f u1 u2 = .ok out →
      StoreInv out.store) ∧
    (StoreInv store → ∀ out,
      on_create_activity k store incoming sf u1 u2 = .ok out →
      StoreInv out.store) ∧
    (StoreInv store → CacheInv cache → ∀ act,
      (cachedFetch store cache now uri).response = .ok act →
      act.id = uri) ∧
    (StoreInv store → CacheInv cache →
      CacheInv (cachedFetch store cache now uri).cache) := by
  refine ⟨emptyStore_inv, emptyCache_inv, ?_, ?_, ?_, ?_⟩
  · intro hs out hout
    cases f with
    | error e =>
      injection hout with hout
      rw [← hout]
      exact storeInsert_inv _ _ _ (storeInsert_inv _ _ _ hs rfl) rfl
    | ok oa =>
      cases oa with
      | none => exact Except.noConfusion hout
      | some a =>
        injection hout with hout
        rw [← hout]
        exact storeInsert_inv _ _ _ (storeInsert_inv _ _ _ hs rfl) rfl
  · intro hs out hout
    obtain ⟨sactor, obj⟩ := incoming
    cases obj with
    | other =>
      simp only [on_create_activity] at hout
      injection hout with hout
      rw [← hout]
      exact hs
    | note note =>
      by_cases hment : mentionsActor note = true
      · cases hp : parse_reminder (commandText note.content) with
        | error e =>
          simp only [on_create_activity, hment, hp, if_true] at hout
          exact Except.noConfusion hout
        | ok parsed =>
          cases sf with
          | error e =>
            simp only [on_create_activity, hment, hp, if_true] at hout
            exact Except.noConfusion hout
          | ok so =>
            cases so with
            | none =>
              simp only [on_create_activity, hment, hp, if_true] at hout
              exact Except.noConfusion hout
            | some sender =>
              simp only [on_create_activity, hment, hp, if_true] at hout
              injection hout with hout
              rw [← hout]
              exact storeInsert_inv _ _ _ (storeInsert_inv _ _ _ hs rfl) rfl
      · simp only [on_create_activity, hment, if_false] at hout
        injection hout with hout
        rw [← hout]
        exact hs
  · intro hs hc act hresp
    cases hcc : cache uri with
    | some e =>
      by_cases hf : now - e.timestamp < CACHE_TTL
      · have heq : cachedFetch store cache now uri = ⟨.ok e.activity, cache, 0⟩ := by
          simp [cachedFetch, hcc, hf]
        rw [heq] at hresp
        have h2 : FetchResponse.ok e.activity = .ok act := hresp
        injection h2 with h3
        rw [← h3]
        exact hc uri e hcc
      · cases hss : store uri with
        | some a =>
          have heq : cachedFetch store cache now uri =
              ⟨.ok a, cacheInsert cache uri ⟨a, now⟩, 1⟩ := by
            simp [cachedFetch, hcc, hf, hss]
          rw [heq] at hresp
          have h2 : FetchResponse.ok a = .ok act := hresp
          injection h2 with h3
          rw [← h3]
          exact hs uri a hss
        | none =>
          have heq : cachedFetch store cache now uri = ⟨.notFound, cache, 1⟩ := by
            simp [cachedFetch, hcc, hf, hss]
          rw [heq] at hresp
          exact FetchResponse.noConfusion hresp
    | none =>
      cases hss : store uri with
      | some a =>
        have heq : cachedFetch store cache now uri =
            ⟨.ok a, cacheInsert cache uri ⟨a, now⟩, 1⟩ := by
          simp [cachedFetch, hcc, hss]
        rw [heq] at hresp
        have h2 : FetchResponse.ok a = .ok act := hresp
        injection h2 with h3
        rw [← h3]
        exact hs uri a hss
      | none =>
        have heq : cachedFetch store cache now uri = ⟨.notFound, cache, 1⟩ := by
          simp [cachedFetch, hcc, hss]
        rw [heq] at hresp
        exact FetchResponse.noConfusion hresp
  · intro hs hc
    cases hcc : cache uri with
    | some e =>
      by_cases hf : now - e.timestamp < CACHE_TTL
      · have heq : cachedFetch store cache now uri = ⟨.ok e.activity, cache, 0⟩ := by
          simp [cachedFetch, hcc, hf]
        rw [heq]
        exact hc
      · cases hss : store uri with
        | some a =>
          have heq : cachedFetch store cache now uri =
              ⟨.ok a, cacheInsert cache uri ⟨a, now⟩, 1⟩ := by
            simp [cachedFetch, hcc, hf, hss]
          rw [heq]
          exact cacheInsert_inv _ _ _ hc (hs uri a hss)
        | none =>
          have heq : cachedFetch store cache now uri = ⟨.notFound, cache, 1⟩ := by
            simp [cachedFetch, hcc, hf, hss]
          rw [heq]
          exact hc
    | none =>
      cases hss : store uri with
      | some a =>
        have heq : cachedFetch store cache now uri =
            ⟨.ok a, cacheInsert cache uri ⟨a, now⟩, 1⟩ := by
          simp [cachedFetch, hcc, hss]
        rw [heq]
        exact cacheInsert_inv _ _ _ hc (hs uri a hss)
      | none =>
        have heq : cachedFetch store cache now uri = ⟨.notFound, cache, 1⟩ := by
          simp [cachedFetch, hcc, hss]
        rw [heq]
        exact hc

theorem store_key_invariant_witness :
    StoreInv sampleStore ∧ CacheInv emptyCache ∧
    Activity.id (.note sampleNote) = mkNoteId "n1" := by
  have hInv : StoreInv sampleStore :=
    storeInsert_inv emptyStore (mkNoteId "n1") (.note sampleNote)
      emptyStore_inv rfl
  refine ⟨hInv, emptyCache_inv, ?_⟩
  exact (store_key_invariant sampleStore emptyCache toyKey exampleSender "o" "m"
      (.error ()) "ua" "ub" exampleBadCreate (.ok (some exampleSender)) 0
      (mkNoteId "n1")).2.2.2.2.1 hInv emptyCache_inv (.note sampleNote)
    (by decide)
